import Mathlib

/-!
# Verification of the course-generator frontend (`src/frontend/main.js`)

Shallow embedding of the incremental-disclosure state machine and the
renderer of the browser client.  The single mutable `currentCourse`
object becomes an explicit `Course` value; every handler becomes a pure
function from the course (plus the action's parameters) to the new
course together with the network calls it issues and the toast
notifications it shows.  The two `async` handlers suspend exactly once,
at their `fetch`; each is therefore split into the synchronous prefix
(`toggleWeekExpand`, `loadDayContent`) and a resolution step applied
when the response arrives (`resolveWeekFetch`, `resolveDayFetch`),
matching the single-threaded run-to-completion event model of §5 of the
design.  JSON payloads are modelled with the shapes of the external
interface (§6): absent optional fields are `Option.none`, and JavaScript
`x || d` on strings/numbers (empty string and `0` are falsy) is the
explicit `jsOr` / `jsOrNat`.
-/

/-- A learning resource embedded in a loaded day (main.js data model /
`renderResources`). -/
structure Resource where
  source : String
  url : String
  title : String
  description : Option String
  thumbnail : Option String
  deriving Repr, DecidableEq

/-- A day record as the client stores it: the fields delivered by the
week-breakdown endpoint plus the client-only `_loaded` flag and the
detail fields, which are absent until a `generateDay` response is merged
in (main.js `loadDayContent`). -/
structure Day where
  day : Nat
  title : String
  concepts : List String
  task_type : Option String
  duration_minutes : Option Nat
  _loaded : Bool
  description : Option String
  table_of_contents : Option (List String)
  resources : Option (List Resource)
  deriving Repr, DecidableEq

/-- A week record: outline fields plus the client-only `_days`,
`_expanded`, `_loading` flags stapled on by `toggleWeekExpand`.  In the
source the flags are simply absent (hence falsy) until first assigned;
here they start as `false` / `none`. -/
structure Week where
  week : Nat
  title : String
  focus : Option String
  concepts : List String
  _days : Option (List Day)
  _expanded : Bool
  _loading : Bool
  deriving Repr, DecidableEq

/-- `currentCourse.requestParams`, recorded after a successful outline
generation (main.js 136). -/
structure RequestParams where
  goal : String
  model : String
  deriving Repr, DecidableEq

/-- The single course document held by the client (`currentCourse`). -/
structure Course where
  title : String
  description : String
  prerequisites : List String
  weeks : List Week
  requestParams : RequestParams
  deriving Repr, DecidableEq

/-- A week as delivered by the outline endpoint: no client-only flags. -/
structure WeekData where
  week : Nat
  title : String
  focus : Option String
  concepts : List String
  deriving Repr, DecidableEq

/-- Outline-endpoint response body (Course minus client-only fields). -/
structure OutlineData where
  title : String
  description : String
  prerequisites : List String
  weeks : List WeekData
  deriving Repr, DecidableEq

/-- A day as delivered inside a `generateWeek` response: `seq<Day>`
minus detail fields and minus client-only flags (§4.1, §6). -/
structure DayData where
  day : Nat
  title : String
  concepts : List String
  task_type : Option String
  duration_minutes : Option Nat
  deriving Repr, DecidableEq

/-- A `generateDay` success response: the Day-detail JSON of §6
(description, table of contents, resources).  `Object.assign` copies
exactly the fields present on this object onto the day record. -/
structure DayDetails where
  description : String
  table_of_contents : Option (List String)
  resources : Option (List Resource)
  deriving Repr, DecidableEq

/-- Body of the `POST /api/generate/week` request built at
main.js 341-347. -/
structure WeekRequest where
  goal : String
  week_number : Nat
  week_title : String
  concepts : List String
  model : String
  deriving Repr, DecidableEq

/-- Body of the `POST /api/generate/day` request built at
main.js 389-396.  `day_number` is computed with JavaScript number
arithmetic, embedded as `Int`. -/
structure DayRequest where
  goal : String
  day_title : String
  day_number : Int
  duration_minutes : Nat
  task_type : String
  model : String
  deriving Repr, DecidableEq

/-- A network call issued by a handler. -/
inductive NetCall where
  | weekCall (req : WeekRequest)
  | dayCall (req : DayRequest)
  deriving Repr, DecidableEq

/-- Result of one synchronous segment of a handler: the new course, the
network calls it issued (zero or one) and the toasts it showed. -/
structure StepOut where
  course : Course
  calls : List NetCall
  toasts : List String
  deriving Repr, DecidableEq

/-- JavaScript `o || dflt` for an optional string field: absent and the
empty string are falsy. -/
def jsOr (o : Option String) (dflt : String) : String :=
  match o with
  | some s => if s = "" then dflt else s
  | none => dflt

/-- JavaScript `o || dflt` for an optional numeric field: absent and `0`
are falsy. -/
def jsOrNat (o : Option Nat) (dflt : Nat) : Nat :=
  match o with
  | some n => if n = 0 then dflt else n
  | none => dflt

/-- `currentCourse` as built from a successful outline response:
`currentCourse = await response.json(); currentCourse.requestParams =
{goal, model}` (main.js 135-136).  The weeks arrive without the
client-only flags, so those start falsy. -/
def initWeek (wd : WeekData) : Week :=
  { week := wd.week, title := wd.title, focus := wd.focus,
    concepts := wd.concepts, _days := none, _expanded := false, _loading := false }

def initCourse (od : OutlineData) (goal model : String) : Course :=
  { title := od.title, description := od.description,
    prerequisites := od.prerequisites, weeks := od.weeks.map initWeek,
    requestParams := { goal := goal, model := model } }

/-- The body of `toggleWeekExpand` acting on the weeks list: the source
does `weeks.findIndex(w => w.week === weekNum)` and then mutates that
single element in place (main.js 317-366), so only the first week with a
matching number is touched.  Returns the updated list and the
`generateWeek` calls issued (none, or exactly one when the
days-not-yet-loaded branch runs up to its `fetch`). -/
def toggleWeekList (params : RequestParams) : List Week → Nat → List Week × List NetCall
  | [], _ => ([], [])
  | w :: ws, weekNum =>
    if w.week == weekNum then
      if w._expanded then
        ({ w with _expanded := false } :: ws, [])
      else
        match w._days with
        | none =>
          ({ w with _loading := true } :: ws,
           [NetCall.weekCall
             { goal := params.goal, week_number := w.week, week_title := w.title,
               concepts := w.concepts, model := params.model }])
        | some _ => ({ w with _expanded := true } :: ws, [])
    else
      (w :: (toggleWeekList params ws weekNum).1, (toggleWeekList params ws weekNum).2)

/-- Synchronous prefix of `toggleWeekExpand(weekNum)` (main.js 317-366):
everything the handler does before it suspends at the `generateWeek`
fetch (or to completion when no fetch is issued).  Rendering only writes
the DOM and is modelled by the pure `render*` functions below. -/
def toggleWeekExpand (c : Course) (weekNum : Nat) : StepOut :=
  match toggleWeekList c.requestParams c.weeks weekNum with
  | (ws, calls) => { course := { c with weeks := ws }, calls := calls, toasts := [] }

/-- In-place mutation of the first week with the given number, as done
through the object reference captured by the suspended handler.  Week
numbers are unique within a course (§3), so the captured object is the
first — and only — entry with its number. -/
def updateFirstWeek : List Week → Nat → (Week → Week) → List Week
  | [], _, _ => []
  | w :: ws, weekNum, f =>
    if w.week == weekNum then f w :: ws else w :: updateFirstWeek ws weekNum f

/-- A day record as stored from a `generateWeek` response: the delivered
fields, with the client-only flag and the detail fields still absent. -/
def mkDay (d : DayData) : Day :=
  { day := d.day, title := d.title, concepts := d.concepts,
    task_type := d.task_type, duration_minutes := d.duration_minutes,
    _loaded := false, description := none, table_of_contents := none,
    resources := none }

/-- Outcome of the `generateWeek` fetch: `ok` carries `data.days` (which
the handler defaults with `data.days || []`, main.js 353), `err` is any
thrown error (non-2xx or network failure). -/
inductive WeekResp where
  | ok (days : Option (List DayData))
  | err
  deriving Repr, DecidableEq

/-- Resumption of `toggleWeekExpand` after its fetch resolves
(main.js 352-360): on success store `_days`, clear `_loading`, set
`_expanded`; on failure clear `_loading` and toast the retry message. -/
def resolveWeekFetch (c : Course) (weekNum : Nat) (resp : WeekResp) : StepOut :=
  match resp with
  | .ok days =>
    { course := { c with weeks := updateFirstWeek c.weeks weekNum (fun w =>
        { w with _days := some ((days.getD []).map mkDay),
                 _loading := false, _expanded := true }) },
      calls := [], toasts := [] }
  | .err =>
    { course := { c with weeks := updateFirstWeek c.weeks weekNum (fun w =>
        { w with _loading := false }) },
      calls := [], toasts := ["Failed to load week details. Click to retry."] }

/-- Synchronous prefix of `loadDayContent(weekNum, dayNum)`
(main.js 369-397): the guard chain `!week || !week._days`, `!day ||
day._loaded`, `!dayEl`, then the `generateDay` fetch.  The day's DOM
element `#day-weekNum-dayNum` exists exactly when the last render
emitted it, i.e. when the parent week card is expanded (renderWeekCard
renders day cards only under `isExpanded && week._days`), so the
`!dayEl` guard is the `_expanded` test.  No course state changes before
the fetch (the spinner is DOM-only). -/
def loadDayContent (c : Course) (weekNum dayNum : Nat) : StepOut :=
  match c.weeks.find? (fun w => w.week == weekNum) with
  | none => { course := c, calls := [], toasts := [] }
  | some w =>
    match w._days with
    | none => { course := c, calls := [], toasts := [] }
    | some ds =>
      match ds.find? (fun d => d.day == dayNum) with
      | none => { course := c, calls := [], toasts := [] }
      | some d =>
        if d._loaded then { course := c, calls := [], toasts := [] }
        else if w._expanded then
          { course := c,
            calls := [NetCall.dayCall
              { goal := c.requestParams.goal, day_title := d.title,
                day_number := ((weekNum : Int) - 1) * 7 + (dayNum : Int),
                duration_minutes := jsOrNat d.duration_minutes 60,
                task_type := jsOr d.task_type "theory",
                model := c.requestParams.model }],
            toasts := [] }
        else { course := c, calls := [], toasts := [] }

/-- `Object.assign(day, details)` for a Day-detail response
(main.js 402): the fields present on the response overwrite the day's;
fields absent from the response leave the day's value in place. -/
def mergeDetails (d : Day) (det : DayDetails) : Day :=
  { d with description := some det.description,
           table_of_contents := det.table_of_contents <|> d.table_of_contents,
           resources := det.resources <|> d.resources }

/-- In-place mutation of the first day with the given number, through
the reference captured by the suspended handler. -/
def updateFirstDay : List Day → Nat → (Day → Day) → List Day
  | [], _, _ => []
  | d :: ds, dayNum, f =>
    if d.day == dayNum then f d :: ds else d :: updateFirstDay ds dayNum f

/-- Outcome of the `generateDay` fetch. -/
inductive DayResp where
  | ok (details : DayDetails)
  | err
  deriving Repr, DecidableEq

/-- Resumption of `loadDayContent` after its fetch resolves
(main.js 401-409): on success `Object.assign(day, details)` then
`day._loaded = true`; on failure only a toast. -/
def resolveDayFetch (c : Course) (weekNum dayNum : Nat) (resp : DayResp) : StepOut :=
  match resp with
  | .ok details =>
    { course := { c with weeks := updateFirstWeek c.weeks weekNum (fun w =>
        match w._days with
        | none => w
        | some ds =>
          { w with _days := some (updateFirstDay ds dayNum (fun d =>
              { mergeDetails d details with _loaded := true })) }) },
      calls := [], toasts := [] }
  | .err => { course := c, calls := [], toasts := ["Failed to load day details."] }

/-- The user/network events that can hit a live course: a click on a
week header, the resolution of a pending week fetch, a click on a day
card, the resolution of a pending day fetch.  Re-renders after each
event are pure projections (§4.3) and change no course state. -/
inductive Event where
  | toggle (weekNum : Nat)
  | weekResolve (weekNum : Nat) (resp : WeekResp)
  | dayLoad (weekNum dayNum : Nat)
  | dayResolve (weekNum dayNum : Nat) (resp : DayResp)
  deriving Repr, DecidableEq

/-- One event applied to the course state. -/
def applyEvent (c : Course) (e : Event) : StepOut :=
  match e with
  | .toggle n => toggleWeekExpand c n
  | .weekResolve n r => resolveWeekFetch c n r
  | .dayLoad n m => loadDayContent c n m
  | .dayResolve n m r => resolveDayFetch c n m r

/-- The course state after a sequence of events. -/
def run (c : Course) (es : List Event) : Course :=
  es.foldl (fun c e => (applyEvent c e).course) c

/-!
## API Client error paths (§4.1, §6, §7)

What each operation raises on a non-2xx response, as a function of the
HTTP status and the `detail` field parsed from the response body
(absent when the body is not JSON or has no such field).
-/

/-- Outline generation, main.js 130-132: `const err = await
response.json().catch(() => ({})); throw new Error(err.detail ||
`Server error: ${response.status}`)` — the backend's `detail` when
present and non-empty (JavaScript `||`), else a status-derived text. -/
def outlineErrorMessage (status : Nat) (detail : Option String) : String :=
  match detail with
  | some d => if d = "" then "Server error: " ++ toString status else d
  | none => "Server error: " ++ toString status

/-- Week generation, main.js 350: `if (!response.ok) throw new
Error('Failed to load week details')` — a fixed text, ignoring both the
response body and the status. -/
def weekErrorMessage (_status : Nat) (_detail : Option String) : String :=
  "Failed to load week details"

/-- Day generation, main.js 399: `if (!response.ok) throw new
Error('Failed to load day details')` — a fixed text, ignoring both the
response body and the status. -/
def dayErrorMessage (_status : Nat) (_detail : Option String) : String :=
  "Failed to load day details"

/-!
## Renderer (§4.3)

Pure projection from the course state to the markup string.  Template
literals become string concatenation (insignificant indentation inside
the templates is condensed); `${n}` on a number is `toString`.
-/

/-- One character of `escHtml` (main.js 514-519).  The source routes the
string through a detached `div`'s `textContent`/`innerHTML`, whose HTML
serialisation escapes `&`, `<` and `>` in text content and leaves
quotes alone. -/
def escHtmlChar (ch : Char) : List Char :=
  if ch = '&' then "&amp;".data
  else if ch = '<' then "&lt;".data
  else if ch = '>' then "&gt;".data
  else [ch]

/-- `escHtml` (main.js 514-519): falsy input gives `''`, otherwise the
text-content HTML escape of every character. -/
def escHtml (str : String) : String :=
  if str = "" then "" else String.mk (str.data.flatMap escHtmlChar)

/-- One character of `escAttr` (main.js 521-529).  The source chains
global replaces of `&`, `"`, the apostrophe, `<`, `>` in that order;
since no replacement text contains a character replaced by a later
step, the chain is the same as this per-character map. -/
def escAttrChar (ch : Char) : List Char :=
  if ch = '&' then "&amp;".data
  else if ch = Char.ofNat 34 then "&quot;".data
  else if ch = Char.ofNat 39 then "&#39;".data
  else if ch = '<' then "&lt;".data
  else if ch = '>' then "&gt;".data
  else [ch]

/-- `escAttr` (main.js 521-529): falsy input gives `''`, otherwise the
attribute escape of every character. -/
def escAttr (str : String) : String :=
  if str = "" then "" else String.mk (str.data.flatMap escAttrChar)

/-- One YouTube resource card (main.js 447-459). -/
def renderYoutubeCard (r : Resource) : String :=
  "<a href=\"" ++ escAttr r.url ++ "\" target=\"_blank\" rel=\"noopener\" class=\"resource-card\">"
  ++ (match r.thumbnail with
      | some t =>
        if t = "" then
          "<div class=\"resource-thumb\" style=\"display:flex;align-items:center;justify-content:center;font-size:2rem\">🎬</div>"
        else
          "<img class=\"resource-thumb\" src=\"" ++ escAttr t ++ "\" alt=\"" ++ escAttr r.title
          ++ "\" loading=\"lazy\" onerror=\"this.style.display=\x27none\x27\" />"
      | none =>
        "<div class=\"resource-thumb\" style=\"display:flex;align-items:center;justify-content:center;font-size:2rem\">🎬</div>")
  ++ "<div class=\"resource-info\"><div class=\"resource-source youtube\">▶ YouTube</div>"
  ++ "<div class=\"resource-title\">" ++ escHtml r.title ++ "</div>"
  ++ (match r.description with
      | some dsc => if dsc = "" then "" else "<div class=\"resource-desc\">" ++ escHtml dsc ++ "</div>"
      | none => "")
  ++ "</div></a>"

/-- One web resource card (main.js 470-478). -/
def renderWebCard (r : Resource) : String :=
  "<a href=\"" ++ escAttr r.url ++ "\" target=\"_blank\" rel=\"noopener\" class=\"resource-card\">"
  ++ "<div class=\"resource-info\"><div class=\"resource-source web\">🌐 Article</div>"
  ++ "<div class=\"resource-title\">" ++ escHtml r.title ++ "</div>"
  ++ (match r.description with
      | some dsc => if dsc = "" then "" else "<div class=\"resource-desc\">" ++ escHtml dsc ++ "</div>"
      | none => "")
  ++ "</div></a>"

/-- `renderResources` (main.js 434-485): empty input renders nothing;
otherwise the YouTube section then the web section, each only when its
filter is non-empty. -/
def renderResources (resources : List Resource) : String :=
  if resources.isEmpty then "" else
  let youtube := resources.filter (fun r => r.source == "youtube")
  let web := resources.filter (fun r => r.source == "web")
  (if youtube.length > 0 then
    "<div class=\"resources-section\"><h4>🎬 YouTube Videos</h4><div class=\"resources-grid\">"
    ++ String.join (youtube.map renderYoutubeCard) ++ "</div></div>"
   else "")
  ++ (if web.length > 0 then
    "<div class=\"resources-section\" style=\"margin-top:var(--space-lg)\"><h4>🌐 Web Resources</h4><div class=\"resources-grid\">"
    ++ String.join (web.map renderWebCard) ++ "</div></div>"
   else "")

/-- `renderDayContent` (main.js 413-430): description, optional table of
contents, resources.  `escHtml(task.description)` on an absent field is
`escHtml` of a falsy value, i.e. `''`. -/
def renderDayContent (task : Day) : String :=
  let tocHtml :=
    match task.table_of_contents with
    | some toc =>
      if toc.length > 0 then
        "<div class=\"day-toc\" style=\"margin-top:15px; margin-bottom:15px;\">"
        ++ "<h5 style=\"margin:0 0 8px 0; color:var(--primary); font-size:0.9rem; text-transform:uppercase; letter-spacing:0.5px;\">Table of Contents</h5>"
        ++ "<ul style=\"margin:0; padding-left:20px; color:var(--text-secondary);\">"
        ++ String.join (toc.map (fun t => "<li style=\"margin-bottom:4px\">" ++ escHtml t ++ "</li>"))
        ++ "</ul></div>"
      else ""
    | none => ""
  "<div class=\"day-desc\">" ++ escHtml (task.description.getD "") ++ "</div>"
  ++ tocHtml
  ++ renderResources (task.resources.getD [])

/-- `renderDayCard` (main.js 281-314).  The source also computes a
`globalDay = (weekNum - 1) * 7 + day.day` at line 283 that is never used
in the emitted markup. -/
def renderDayCard (day : Day) (weekNum : Nat) : String :=
  let isLoaded := day._loaded
  let conceptsHtml :=
    if day.concepts.length > 0 then
      "<div class=\"day-concepts\" style=\"margin-top:4px\">"
      ++ String.join (day.concepts.map (fun c => "<span class=\"concept-tag\">" ++ escHtml c ++ "</span>"))
      ++ "</div>"
    else ""
  let contentHtml :=
    if isLoaded then "<div class=\"day-content-area\">" ++ renderDayContent day ++ "</div>" else ""
  "<div class=\"timeline-day day-in-week " ++ (if isLoaded then "loaded" else "")
  ++ "\" id=\"day-" ++ toString weekNum ++ "-" ++ toString day.day
  ++ "\" onclick=\"loadDayContent(" ++ toString weekNum ++ ", " ++ toString day.day
  ++ ")\" style=\"cursor:pointer; margin-left: 16px; border-left: 2px solid var(--border-color); padding-left: 12px;\">"
  ++ "<div class=\"day-header\"><span class=\"day-number\" style=\"font-size:0.75rem\">Day " ++ toString day.day ++ "</span>"
  ++ "<span class=\"day-type " ++ jsOr day.task_type "theory" ++ "\" style=\"font-size:0.65rem\">" ++ jsOr day.task_type "theory" ++ "</span>"
  ++ (if !isLoaded then "<span class=\"day-status\" style=\"font-size:0.7em; opacity:0.6\">Load details →</span>" else "")
  ++ "</div><div class=\"day-title\" style=\"font-size:0.85rem\">" ++ escHtml day.title ++ "</div>"
  ++ conceptsHtml ++ contentHtml ++ "</div>"

/-- `renderWeekCard` (main.js 239-279).  `focusClass = week.focus ||
'theory'` is interpolated twice — as a class token and as the badge
text — in both places without escaping. -/
def renderWeekCard (week : Week) : String :=
  let focusClass := jsOr week.focus "theory"
  let isExpanded := week._expanded
  let isLoading := week._loading
  let conceptsHtml :=
    if week.concepts.length > 0 then
      "<div class=\"day-concepts\">"
      ++ String.join (week.concepts.map (fun c => "<span class=\"concept-tag\">" ++ escHtml c ++ "</span>"))
      ++ "</div>"
    else ""
  let loadingHtml :=
    if isLoading then
      "<div class=\"week-days-breakdown\"><div class=\"spinner-small\">Loading daily breakdown...</div></div>"
    else ""
  let daysHtml :=
    match week._days with
    | some ds =>
      if isExpanded then
        "<div class=\"week-days-breakdown\">"
        ++ String.join (ds.map (fun d => renderDayCard d week.week)) ++ "</div>"
      else loadingHtml
    | none => loadingHtml
  "<div class=\"timeline-day week-card " ++ (if isExpanded then "expanded" else "")
  ++ "\" id=\"week-" ++ toString week.week ++ "\">"
  ++ "<div class=\"day-header\" onclick=\"toggleWeekExpand(" ++ toString week.week ++ ")\" style=\"cursor:pointer\">"
  ++ "<span class=\"day-number\">Week " ++ toString week.week ++ "</span>"
  ++ "<span class=\"day-type " ++ focusClass ++ "\">" ++ focusClass ++ "</span>"
  ++ "<span class=\"day-status\" style=\"font-size:0.8em; opacity:0.7\">"
  ++ (if isExpanded then "▲ Collapse" else "▼ Click to expand days") ++ "</span></div>"
  ++ "<div class=\"day-title\">" ++ escHtml week.title ++ "</div>"
  ++ conceptsHtml ++ daysHtml ++ "</div>"

/-- The course header built in `renderCourse` (main.js 180-205).  The
course object has no `classes` field, so the optional chain
`course.classes?.length || weeks.length` yields `weeks.length`. -/
def renderCourseHeader (course : Course) : String :=
  let weeks := course.weeks
  "<h1 class=\"course-title\">" ++ escHtml course.title ++ "</h1>"
  ++ "<p class=\"course-desc\">" ++ escHtml course.description ++ "</p>"
  ++ "<div class=\"course-meta\">"
  ++ "<span class=\"meta-badge\">📅 " ++ toString weeks.length ++ " weeks</span>"
  ++ "<span class=\"meta-badge\">📚 " ++ toString weeks.length ++ " modules</span>"
  ++ "<span class=\"meta-badge\">⏱ ~" ++ toString (weeks.length * 5) ++ " learning days</span>"
  ++ "</div>"
  ++ (if course.prerequisites.length > 0 then
      "<div class=\"prerequisites-section\"><h3 class=\"prereq-title\">📋 Prerequisites & Basics</h3><ul class=\"prereq-list\">"
      ++ String.join (course.prerequisites.map (fun p => "<li>" ++ escHtml p ++ "</li>"))
      ++ "</ul></div>"
     else "")

/-- `true` when `pat` occurs as a contiguous substring of `s` (used to
state facts about the emitted markup). -/
def charsContain : List Char → List Char → Bool
  | [], pat => pat.isEmpty
  | c :: rest, pat => pat.isPrefixOf (c :: rest) || charsContain rest pat

def strContains (s pat : String) : Bool :=
  charsContain s.data pat.data

/-!
## Concrete course used by the scenario theorems and witnesses
-/

def sampleParams : RequestParams := { goal := "Learn Rust", model := "llama3" }

/-- Week 1 fresh from the outline: no cached days, collapsed. -/
def wIntro : Week :=
  { week := 1, title := "Intro", focus := none, concepts := ["basics"],
    _days := none, _expanded := false, _loading := false }

/-- A day whose details are already loaded. -/
def dDone : Day :=
  { day := 1, title := "Setup", concepts := [], task_type := some "theory",
    duration_minutes := some 30, _loaded := true,
    description := some "Install the toolchain.",
    table_of_contents := none, resources := none }

/-- A day not yet loaded. -/
def dOwnership : Day :=
  { day := 3, title := "Ownership", concepts := [], task_type := some "practice",
    duration_minutes := some 45, _loaded := false, description := none,
    table_of_contents := none, resources := none }

/-- Week 2 with its breakdown cached and expanded. -/
def wBasics : Week :=
  { week := 2, title := "Basics", focus := some "theory", concepts := [],
    _days := some [dDone, dOwnership], _expanded := true, _loading := false }

def sampleCourse : Course :=
  { title := "Rust Course", description := "Learn Rust in 12 weeks.",
    prerequisites := [], weeks := [wIntro, wBasics], requestParams := sampleParams }

/-- C1: the claim requires that while a week's `generateWeek` fetch is
pending (the week is in the `Loading` state with `_loading` true) a
second toggle on that week triggers no second network call.
`toggleWeekExpand` never tests `_loading`: its fetch branch is guarded
only by `!week._expanded && !week._days`, both still true while the
first fetch is pending.  This theorem evaluates the handler at the
failing input: the first toggle on week 1 issues the `generateWeek`
call and leaves the week with `_loading = true` and `_days` absent, and
a second toggle in that state issues a second, identical call. -/
theorem c1_second_toggle_while_loading_fetches_again :
    (toggleWeekExpand sampleCourse 1).calls =
      [NetCall.weekCall { goal := "Learn Rust", week_number := 1, week_title := "Intro",
                          concepts := ["basics"], model := "llama3" }]
    ∧ ((toggleWeekExpand sampleCourse 1).course.weeks.map Week._loading) = [true, false]
    ∧ ((toggleWeekExpand sampleCourse 1).course.weeks.map Week._days) = [none, some [dDone, dOwnership]]
    ∧ (toggleWeekExpand (toggleWeekExpand sampleCourse 1).course 1).calls =
      [NetCall.weekCall { goal := "Learn Rust", week_number := 1, week_title := "Intro",
                          concepts := ["basics"], model := "llama3" }] := by
  refine ⟨rfl, rfl, rfl, rfl⟩

/-- C4 counterexample: a week-detail request answered with HTTP 500 and
body `{"detail":"model not found"}` raises the fixed error `'Failed to
load week details'` (main.js 350), which neither carries the backend's
message nor is derived from the status; the day path (main.js 399)
behaves the same way.  This refutes the claim that every generation
operation surfaces the backend's message when present. -/
theorem c4_counterexample_fixed_messages :
    weekErrorMessage 500 (some "model not found") = "Failed to load week details"
    ∧ weekErrorMessage 500 (some "model not found") ≠ "model not found"
    ∧ weekErrorMessage 500 (some "model not found") ≠ "Server error: 500"
    ∧ dayErrorMessage 500 (some "model not found") ≠ "model not found"
    ∧ dayErrorMessage 500 (some "model not found") ≠ "Server error: 500" := by
  refine ⟨rfl, by decide, by decide, by decide, by decide⟩

/-- C4 (amended): only the outline operation raises an error carrying
the backend's `detail` message when present and non-empty, falling back
to the status-derived `'Server error: {status}'`; the week and day
operations raise fixed messages that ignore both the response body and
the status. -/
theorem c4_amended_error_messages :
    (∀ (status : Nat) (d : String),
        outlineErrorMessage status (some d) =
          if d = "" then "Server error: " ++ toString status else d)
    ∧ (∀ status : Nat, outlineErrorMessage status none = "Server error: " ++ toString status)
    ∧ (∀ (status : Nat) (d : Option String), weekErrorMessage status d = "Failed to load week details")
    ∧ (∀ (status : Nat) (d : Option String), dayErrorMessage status d = "Failed to load day details") := by
  exact ⟨fun _ _ => rfl, fun _ => rfl, fun _ _ => rfl, fun _ _ => rfl⟩

/-- The `generateDay` request issued for week 2, day 3 of the sample
course. -/
def sampleDayReq : DayRequest :=
  { goal := "Learn Rust", day_title := "Ownership", day_number := 10,
    duration_minutes := 45, task_type := "practice", model := "llama3" }

/-- C9: whenever `loadDayContent` issues a `generateDay` call, the
`day_number` field of the request body equals `(weekNum - 1) * 7 +
dayNum` (main.js 392); in particular the call for week 2, day 3 carries
`day_number = 10`. -/
theorem c9_global_day_number :
    (∀ (c : Course) (weekNum dayNum : Nat) (req : DayRequest),
        (loadDayContent c weekNum dayNum).calls = [NetCall.dayCall req] →
        req.day_number = ((weekNum : Int) - 1) * 7 + (dayNum : Int))
    ∧ (loadDayContent sampleCourse 2 3).calls = [NetCall.dayCall sampleDayReq]
    ∧ sampleDayReq.day_number = 10 := by
  refine ⟨?_, rfl, rfl⟩
  intro c weekNum dayNum req h
  unfold loadDayContent at h
  repeat' split at h
  all_goals first
    | (injection h with h1 h2; injection h1 with h3; subst h3; rfl)
    | simp at h

/-- Witness for C9: the premise of the universal part holds at the
sample course, week 2, day 3, and the formula gives 10. -/
theorem c9_global_day_number_witness :
    sampleDayReq.day_number = ((2 : Int) - 1) * 7 + (3 : Int) :=
  c9_global_day_number.1 sampleCourse 2 3 sampleDayReq (by rfl)

/-- C7: clicking an already-loaded day is a no-op — `loadDayContent`
returns at the `day._loaded` guard (main.js 377) before the spinner and
the fetch, so no network call is issued and the course state is
returned unchanged. -/
theorem c7_loaded_day_reload_is_noop (c : Course) (n m : Nat) (w : Week)
    (ds : List Day) (d : Day)
    (hw : c.weeks.find? (fun x => x.week == n) = some w)
    (hds : w._days = some ds)
    (hd : ds.find? (fun x => x.day == m) = some d)
    (hl : d._loaded = true) :
    loadDayContent c n m = { course := c, calls := [], toasts := [] } := by
  simp only [loadDayContent, hw, hds, hd, hl, if_true]

/-- Witness for C7: reloading the already-loaded day 1 of week 2 of the
sample course is a no-op. -/
theorem c7_loaded_day_reload_is_noop_witness :
    loadDayContent sampleCourse 2 1 = { course := sampleCourse, calls := [], toasts := [] } :=
  c7_loaded_day_reload_is_noop sampleCourse 2 1 wBasics [dDone, dOwnership] dDone
    (by rfl) rfl (by rfl) rfl

/-- `toggleWeekExpand`'s `findIndex` miss: when no week has the given
number the list is returned untouched and no call is issued
(main.js 319-320). -/
theorem toggleWeekList_nomatch (params : RequestParams) (ws : List Week) (n : Nat)
    (h : ws.find? (fun w => w.week == n) = none) :
    toggleWeekList params ws n = (ws, []) := by
  induction ws with
  | nil => rfl
  | cons a as ih =>
    simp only [List.find?] at h
    split at h
    · exact absurd h (by simp)
    · next hk =>
      simp only [toggleWeekList, hk, Bool.false_eq_true, if_false, ih h]

/-- C10: a toggle keyed by a week number absent from the course, and a
day load keyed by a week with no `_days`, or by a day number absent
from that week's `_days`, are all no-ops: no network call, no toast,
and the entire course state unchanged (main.js 318-320, 373-377). -/
theorem c10_unknown_keys_are_noops :
    (∀ (c : Course) (n : Nat),
        c.weeks.find? (fun w => w.week == n) = none →
        toggleWeekExpand c n = { course := c, calls := [], toasts := [] })
    ∧ (∀ (c : Course) (n m : Nat),
        c.weeks.find? (fun w => w.week == n) = none →
        loadDayContent c n m = { course := c, calls := [], toasts := [] })
    ∧ (∀ (c : Course) (n m : Nat) (w : Week),
        c.weeks.find? (fun x => x.week == n) = some w → w._days = none →
        loadDayContent c n m = { course := c, calls := [], toasts := [] })
    ∧ (∀ (c : Course) (n m : Nat) (w : Week) (ds : List Day),
        c.weeks.find? (fun x => x.week == n) = some w → w._days = some ds →
        ds.find? (fun x => x.day == m) = none →
        loadDayContent c n m = { course := c, calls := [], toasts := [] }) := by
  refine ⟨?_, ?_, ?_, ?_⟩
  · intro c n h
    unfold toggleWeekExpand
    rw [toggleWeekList_nomatch c.requestParams c.weeks n h]
  · intro c n m h
    simp only [loadDayContent, h]
  · intro c n m w hw hds
    simp only [loadDayContent, hw, hds]
  · intro c n m w ds hw hds hd
    simp only [loadDayContent, hw, hds, hd]

/-- Witness for C10: on the sample course, toggling week 99, loading a
day of week 99, loading a day of week 1 (whose `_days` is absent) and
loading day 99 of week 2 are all no-ops. -/
theorem c10_unknown_keys_are_noops_witness :
    toggleWeekExpand sampleCourse 99 = { course := sampleCourse, calls := [], toasts := [] }
    ∧ loadDayContent sampleCourse 99 1 = { course := sampleCourse, calls := [], toasts := [] }
    ∧ loadDayContent sampleCourse 1 1 = { course := sampleCourse, calls := [], toasts := [] }
    ∧ loadDayContent sampleCourse 2 99 = { course := sampleCourse, calls := [], toasts := [] } :=
  ⟨c10_unknown_keys_are_noops.1 sampleCourse 99 (by rfl),
   c10_unknown_keys_are_noops.2.1 sampleCourse 99 1 (by rfl),
   c10_unknown_keys_are_noops.2.2.1 sampleCourse 1 1 wIntro (by rfl) rfl,
   c10_unknown_keys_are_noops.2.2.2 sampleCourse 2 99 wBasics [dDone, dOwnership]
     (by rfl) rfl (by rfl)⟩

/-- `findIndex` skips every week before the first match: toggling walks
past a prefix of non-matching weeks untouched. -/
theorem toggleWeekList_skip (params : RequestParams) (pre ws : List Week) (n : Nat)
    (hpre : ∀ x ∈ pre, (x.week == n) = false) :
    toggleWeekList params (pre ++ ws) n =
      (pre ++ (toggleWeekList params ws n).1, (toggleWeekList params ws n).2) := by
  induction pre with
  | nil => simp
  | cons a as ih =>
    have ha : (a.week == n) = false := hpre a (by simp)
    simp only [List.cons_append, toggleWeekList, ha, Bool.false_eq_true, if_false,
      List.append_eq]
    rw [ih (fun x hx => hpre x (by simp [hx]))]

/-- The `Collapsed(noData)` branch of the toggle: set `_loading`, issue
the `generateWeek` call (main.js 332-348). -/
theorem toggleWeekList_head_fetch (params : RequestParams) (ws : List Week) (n : Nat)
    (w : Week) (hn : w.week = n) (he : w._expanded = false) (hd : w._days = none) :
    toggleWeekList params (w :: ws) n =
      ({ w with _loading := true } :: ws,
       [NetCall.weekCall
         { goal := params.goal, week_number := w.week, week_title := w.title,
           concepts := w.concepts, model := params.model }]) := by
  simp only [toggleWeekList, hn, he, hd, beq_self_eq_true, if_true, Bool.false_eq_true,
    if_false]

/-- The `Expanded` branch of the toggle: collapse, no call
(main.js 325-329). -/
theorem toggleWeekList_head_collapse (params : RequestParams) (ws : List Week) (n : Nat)
    (w : Week) (hn : w.week = n) (he : w._expanded = true) :
    toggleWeekList params (w :: ws) n = ({ w with _expanded := false } :: ws, []) := by
  simp only [toggleWeekList, hn, he, beq_self_eq_true, if_true]

/-- The `Collapsed(hasData)` branch of the toggle: re-expand from cache,
no call (main.js 361-363). -/
theorem toggleWeekList_head_cached (params : RequestParams) (ws : List Week) (n : Nat)
    (w : Week) (ds : List Day) (hn : w.week = n) (he : w._expanded = false)
    (hd : w._days = some ds) :
    toggleWeekList params (w :: ws) n = ({ w with _expanded := true } :: ws, []) := by
  simp only [toggleWeekList, hn, he, hd, beq_self_eq_true, if_true, Bool.false_eq_true,
    if_false]

theorem updateFirstWeek_skip (pre ws : List Week) (n : Nat) (f : Week → Week)
    (hpre : ∀ x ∈ pre, (x.week == n) = false) :
    updateFirstWeek (pre ++ ws) n f = pre ++ updateFirstWeek ws n f := by
  induction pre with
  | nil => simp
  | cons a as ih =>
    have ha : (a.week == n) = false := hpre a (by simp)
    simp only [List.cons_append, updateFirstWeek, ha, Bool.false_eq_true, if_false,
      List.append_eq]
    rw [ih (fun x hx => hpre x (by simp [hx]))]

theorem updateFirstWeek_head (ws : List Week) (n : Nat) (f : Week → Week)
    (w : Week) (hn : w.week = n) :
    updateFirstWeek (w :: ws) n f = f w :: ws := by
  simp only [updateFirstWeek, hn, beq_self_eq_true, if_true]

/-- Re-setting `_expanded` to the value it already has is the identity
on the record. -/
theorem week_expanded_eta (w : Week) (h : w._expanded = true) :
    ({ w with _expanded := true } : Week) = w := by
  cases w
  simp_all

/-- C5: when a week-detail fetch fails, the resolution clears
`_loading`, leaves that week's `_days` absent and `_expanded` false and
every other week — and all other course fields — unchanged, shows the
retryable toast, and issues no call (main.js 356-360); a subsequent
toggle on the same week re-enters the fetch branch and issues the
`generateWeek` call again. -/
theorem c5_week_fetch_failure_retryable (c : Course) (n : Nat) (pre post : List Week)
    (w : Week)
    (hw : c.weeks = pre ++ w :: post)
    (hpre : ∀ x ∈ pre, (x.week == n) = false)
    (hn : w.week = n) (hd : w._days = none) (he : w._expanded = false) :
    resolveWeekFetch c n WeekResp.err =
      { course := { c with weeks := pre ++ { w with _loading := false } :: post },
        calls := [], toasts := ["Failed to load week details. Click to retry."] }
    ∧ (toggleWeekExpand { c with weeks := pre ++ { w with _loading := false } :: post } n).calls =
      [NetCall.weekCall
        { goal := c.requestParams.goal, week_number := w.week, week_title := w.title,
          concepts := w.concepts, model := c.requestParams.model }] := by
  constructor
  · unfold resolveWeekFetch
    rw [hw, updateFirstWeek_skip pre (w :: post) n _ hpre, updateFirstWeek_head post n _ w hn]
  · unfold toggleWeekExpand
    rw [show ({ c with weeks := pre ++ { w with _loading := false } :: post } : Course).weeks
          = pre ++ { w with _loading := false } :: post from rfl]
    rw [toggleWeekList_skip _ pre _ n hpre]
    rw [toggleWeekList_head_fetch _ post n { w with _loading := false } hn he hd]

/-- Week 1 of the sample course while its fetch is in flight. -/
def wIntroLoading : Week := { wIntro with _loading := true }

def sampleCourseLoading : Course := { sampleCourse with weeks := [wIntroLoading, wBasics] }

/-- Witness for C5 at the sample course with week 1 mid-fetch. -/
theorem c5_week_fetch_failure_retryable_witness :
    resolveWeekFetch sampleCourseLoading 1 WeekResp.err =
      { course := { sampleCourseLoading with
                    weeks := [] ++ { wIntroLoading with _loading := false } :: [wBasics] },
        calls := [], toasts := ["Failed to load week details. Click to retry."] }
    ∧ (toggleWeekExpand { sampleCourseLoading with
                          weeks := [] ++ { wIntroLoading with _loading := false } :: [wBasics] } 1).calls =
      [NetCall.weekCall
        { goal := sampleCourseLoading.requestParams.goal, week_number := wIntroLoading.week,
          week_title := wIntroLoading.title, concepts := wIntroLoading.concepts,
          model := sampleCourseLoading.requestParams.model }] :=
  c5_week_fetch_failure_retryable sampleCourseLoading 1 [] [wBasics] wIntroLoading
    rfl (by simp) rfl rfl rfl

/-- C6: toggling an expanded week with cached `_days` collapses it, and
toggling it again restores exactly the starting course state; neither
toggle issues a network call (main.js 325-329, 361-363). -/
theorem c6_cached_toggle_round_trip (c : Course) (n : Nat) (pre post : List Week)
    (w : Week) (ds : List Day)
    (hw : c.weeks = pre ++ w :: post)
    (hpre : ∀ x ∈ pre, (x.week == n) = false)
    (hn : w.week = n) (he : w._expanded = true) (hd : w._days = some ds) :
    toggleWeekExpand c n =
      { course := { c with weeks := pre ++ { w with _expanded := false } :: post },
        calls := [], toasts := [] }
    ∧ toggleWeekExpand { c with weeks := pre ++ { w with _expanded := false } :: post } n =
      { course := c, calls := [], toasts := [] } := by
  constructor
  · unfold toggleWeekExpand
    rw [hw, toggleWeekList_skip _ pre _ n hpre, toggleWeekList_head_collapse _ post n w hn he]
  · unfold toggleWeekExpand
    rw [toggleWeekList_skip _ pre _ n hpre]
    rw [toggleWeekList_head_cached _ post n { w with _expanded := false } ds hn rfl hd]
    rw [week_expanded_eta w he, ← hw]

/-- Witness for C6 at week 2 of the sample course. -/
theorem c6_cached_toggle_round_trip_witness :
    toggleWeekExpand sampleCourse 2 =
      { course := { sampleCourse with
                    weeks := [wIntro] ++ { wBasics with _expanded := false } :: [] },
        calls := [], toasts := [] }
    ∧ toggleWeekExpand { sampleCourse with
                         weeks := [wIntro] ++ { wBasics with _expanded := false } :: [] } 2 =
      { course := sampleCourse, calls := [], toasts := [] } :=
  c6_cached_toggle_round_trip sampleCourse 2 [wIntro] [] wBasics [dDone, dOwnership]
    rfl (by decide) rfl rfl rfl


/-- The week-level disclosure invariant of §8: `_expanded` implies
`_days` is present. -/
def weekInvB (w : Week) : Bool := !w._expanded || w._days.isSome

def courseWeekInvB (c : Course) : Bool := c.weeks.all weekInvB

/-- The day-level all-or-nothing invariant of §8: `_loaded` implies the
description detail field is present. -/
def dayInvB (d : Day) : Bool := !d._loaded || d.description.isSome

def weekDaysInvB (w : Week) : Bool := (w._days.getD []).all dayInvB

def courseDayInvB (c : Course) : Bool := c.weeks.all weekDaysInvB

theorem toggleWeekList_all_pres (params : RequestParams) (n : Nat) (P : Week → Bool)
    (h1 : ∀ w, P w = true → P { w with _expanded := false } = true)
    (h2 : ∀ w, P w = true → P { w with _loading := true } = true)
    (h3 : ∀ w ds, w._days = some ds → P w = true → P { w with _expanded := true } = true) :
    ∀ ws : List Week, ws.all P = true → (toggleWeekList params ws n).1.all P = true := by
  intro ws h
  induction ws with
  | nil => simp [toggleWeekList]
  | cons a as ih =>
    simp only [List.all_cons, Bool.and_eq_true] at h
    obtain ⟨ha, has⟩ := h
    simp only [toggleWeekList]
    split
    · split
      · next he => simp [List.all_cons, h1 a ha, has]
      · next he =>
        split
        · next heq => simp [List.all_cons, h2 a ha, has]
        · next ds heq => simp [List.all_cons, h3 a ds heq ha, has]
    · simp [List.all_cons, ha, ih has]

theorem updateFirstWeek_all_pres (n : Nat) (f : Week → Week) (P : Week → Bool)
    (hf : ∀ w, P w = true → P (f w) = true) :
    ∀ ws : List Week, ws.all P = true → (updateFirstWeek ws n f).all P = true := by
  intro ws h
  induction ws with
  | nil => simp [updateFirstWeek]
  | cons a as ih =>
    simp only [List.all_cons, Bool.and_eq_true] at h
    obtain ⟨ha, has⟩ := h
    simp only [updateFirstWeek]
    split
    · simp [List.all_cons, hf a ha, has]
    · simp [List.all_cons, ha, ih has]

theorem updateFirstDay_all_pres (m : Nat) (g : Day → Day) (P : Day → Bool)
    (hg : ∀ d, P d = true → P (g d) = true) :
    ∀ ds : List Day, ds.all P = true → (updateFirstDay ds m g).all P = true := by
  intro ds h
  induction ds with
  | nil => simp [updateFirstDay]
  | cons a as ih =>
    simp only [List.all_cons, Bool.and_eq_true] at h
    obtain ⟨ha, has⟩ := h
    simp only [updateFirstDay]
    split
    · simp [List.all_cons, hg a ha, has]
    · simp [List.all_cons, ha, ih has]

theorem loadDayContent_course (c : Course) (n m : Nat) :
    (loadDayContent c n m).course = c := by
  unfold loadDayContent
  repeat' split
  all_goals rfl

theorem applyEvent_weekInvB (c : Course) (e : Event)
    (h : courseWeekInvB c = true) : courseWeekInvB (applyEvent c e).course = true := by
  cases e with
  | toggle n =>
    unfold applyEvent toggleWeekExpand
    exact toggleWeekList_all_pres c.requestParams n weekInvB
      (by intro w hw; simp [weekInvB])
      (by intro w hw; simpa [weekInvB] using hw)
      (by intro w ds hds hw; simp [weekInvB, hds])
      c.weeks h
  | weekResolve n r =>
    cases r with
    | ok days =>
      unfold applyEvent resolveWeekFetch
      exact updateFirstWeek_all_pres n _ weekInvB
        (by intro w hw; simp [weekInvB]) c.weeks h
    | err =>
      unfold applyEvent resolveWeekFetch
      exact updateFirstWeek_all_pres n _ weekInvB
        (by intro w hw; simpa [weekInvB] using hw) c.weeks h
  | dayLoad n m =>
    simpa [applyEvent, loadDayContent_course] using h
  | dayResolve n m r =>
    cases r with
    | ok details =>
      unfold applyEvent resolveDayFetch
      refine updateFirstWeek_all_pres n _ weekInvB ?_ c.weeks h
      intro w hw
      cases hds : w._days with
      | none => simpa [hds] using hw
      | some ds => simp [hds, weekInvB]
    | err =>
      simpa [applyEvent, resolveDayFetch] using h

theorem applyEvent_dayInvB (c : Course) (e : Event)
    (h : courseDayInvB c = true) : courseDayInvB (applyEvent c e).course = true := by
  cases e with
  | toggle n =>
    unfold applyEvent toggleWeekExpand
    exact toggleWeekList_all_pres c.requestParams n weekDaysInvB
      (by intro w hw; simpa [weekDaysInvB] using hw)
      (by intro w hw; simpa [weekDaysInvB] using hw)
      (by intro w ds hds hw; simpa [weekDaysInvB] using hw)
      c.weeks h
  | weekResolve n r =>
    cases r with
    | ok days =>
      unfold applyEvent resolveWeekFetch
      refine updateFirstWeek_all_pres n _ weekDaysInvB ?_ c.weeks h
      intro w hw
      simp [weekDaysInvB, List.all_map]
      intro d hd
      rfl
    | err =>
      unfold applyEvent resolveWeekFetch
      exact updateFirstWeek_all_pres n _ weekDaysInvB
        (by intro w hw; simpa [weekDaysInvB] using hw) c.weeks h
  | dayLoad n m =>
    simpa [applyEvent, loadDayContent_course] using h
  | dayResolve n m r =>
    cases r with
    | ok details =>
      unfold applyEvent resolveDayFetch
      refine updateFirstWeek_all_pres n _ weekDaysInvB ?_ c.weeks h
      intro w hw
      cases hds : w._days with
      | none => simpa [hds] using hw
      | some ds =>
        simp only [hds, weekDaysInvB, Option.getD_some] at hw ⊢
        exact updateFirstDay_all_pres m _ dayInvB (by intro d hd; rfl) ds hw
    | err =>
      simpa [applyEvent, resolveDayFetch] using h

theorem run_pres (P : Course → Bool)
    (hstep : ∀ c e, P c = true → P (applyEvent c e).course = true) :
    ∀ (es : List Event) (c : Course), P c = true → P (run c es) = true := by
  intro es
  induction es with
  | nil => intro c h; simpa [run] using h
  | cons e es ih =>
    intro c h
    simp only [run, List.foldl_cons]
    exact ih (applyEvent c e).course (hstep c e h)

theorem initCourse_weekInvB (od : OutlineData) (goal model : String) :
    courseWeekInvB (initCourse od goal model) = true := by
  simp [courseWeekInvB, initCourse, List.all_map]
  intro wd hwd
  rfl

theorem initCourse_dayInvB (od : OutlineData) (goal model : String) :
    courseDayInvB (initCourse od goal model) = true := by
  simp [courseDayInvB, initCourse, List.all_map]
  intro wd hwd
  rfl

/-- C2: for every week of the current course, at every state reachable
from a freshly generated outline by any sequence of toggle, day-load
and resolution events (renders are the pure `render*` projections and
touch no state), `_expanded = true` implies `_days` is present; and
every single operation preserves this invariant on any course
satisfying it. -/
theorem c2_expanded_implies_days_present :
    (∀ (od : OutlineData) (goal model : String) (es : List Event),
        courseWeekInvB (run (initCourse od goal model) es) = true)
    ∧ (∀ (c : Course) (e : Event),
        courseWeekInvB c = true → courseWeekInvB (applyEvent c e).course = true) :=
  ⟨fun od goal model es =>
    run_pres courseWeekInvB applyEvent_weekInvB es (initCourse od goal model)
      (initCourse_weekInvB od goal model),
   applyEvent_weekInvB⟩

/-- Witness for C2: the sample course satisfies the invariant and a
toggle preserves it. -/
theorem c2_expanded_implies_days_present_witness :
    courseWeekInvB (applyEvent sampleCourse (Event.toggle 1)).course = true :=
  c2_expanded_implies_days_present.2 sampleCourse (Event.toggle 1) (by decide)

/-- C3: for every day of every week, at every reachable state,
`_loaded = true` implies the day's `description` detail field is
present; every operation — including the `Object.assign` merge a
successful `generateDay` response goes through, which always writes the
response's description before `_loaded` is set — preserves this
invariant. -/
theorem c3_loaded_implies_description_present :
    (∀ (od : OutlineData) (goal model : String) (es : List Event),
        courseDayInvB (run (initCourse od goal model) es) = true)
    ∧ (∀ (c : Course) (e : Event),
        courseDayInvB c = true → courseDayInvB (applyEvent c e).course = true) :=
  ⟨fun od goal model es =>
    run_pres courseDayInvB applyEvent_dayInvB es (initCourse od goal model)
      (initCourse_dayInvB od goal model),
   applyEvent_dayInvB⟩

/-- Witness for C3: the sample course satisfies the invariant and a
successful day resolution preserves it. -/
theorem c3_loaded_implies_description_present_witness :
    courseDayInvB (applyEvent sampleCourse
      (Event.dayResolve 2 3 (DayResp.ok
        { description := "Move semantics.", table_of_contents := none,
          resources := none }))).course = true :=
  c3_loaded_implies_description_present.2 sampleCourse
    (Event.dayResolve 2 3 (DayResp.ok
      { description := "Move semantics.", table_of_contents := none,
        resources := none })) (by decide)

theorem isPrefixOf_self_append (p y : List Char) : p.isPrefixOf (p ++ y) = true := by
  induction p with
  | nil => simp [List.isPrefixOf]
  | cons a as ih => simp [List.isPrefixOf, ih]

theorem charsContain_nil_pat (l : List Char) : charsContain l [] = true := by
  cases l <;> simp [charsContain, List.isPrefixOf]

theorem charsContain_prefix_self (p y : List Char) : charsContain (p ++ y) p = true := by
  cases p with
  | nil => simpa using charsContain_nil_pat y
  | cons a as => simp [charsContain, isPrefixOf_self_append]

theorem charsContain_append_left (x l p : List Char)
    (h : charsContain l p = true) : charsContain (x ++ l) p = true := by
  induction x with
  | nil => simpa using h
  | cons a as ih => simp [charsContain, ih]

set_option maxRecDepth 100000

/-- A week whose model-generated `focus` field carries script markup. -/
def xssWeek : Week :=
  { week := 1, title := "Safe Title", focus := some "<script>alert(1)</script>",
    concepts := [], _days := none, _expanded := false, _loading := false }

/-- C8 counterexample: the claim says every model-generated text field
is HTML-escaped before insertion, so `<script>` content can only appear
as literal text.  The week card interpolates `focusClass = week.focus
|| 'theory'` into the markup twice without any escaping (main.js 240,
269), so a `focus` of `<script>alert(1)</script>` puts a raw
`<script>` tag into the rendered markup — while `escHtml`, had it been
applied, would have left no `<script>` substring. -/
theorem c8_counterexample_focus_unescaped :
    strContains (renderWeekCard xssWeek) "<script>" = true
    ∧ strContains (escHtml "<script>alert(1)</script>") "<script>" = false := by
  constructor <;> rfl

theorem escHtmlChar_no_lt (ch : Char) : (escHtmlChar ch).all (fun c => c != '<') = true := by
  unfold escHtmlChar
  split
  · decide
  · split
    · decide
    · split
      · decide
      · simp_all [bne_iff_ne]

theorem escAttrChar_safe (ch : Char) :
    (escAttrChar ch).all
      (fun c => c != '<' && c != Char.ofNat 34 && c != Char.ofNat 39) = true := by
  unfold escAttrChar
  split
  · decide
  · split
    · decide
    · split
      · decide
      · split
        · decide
        · split
          · decide
          · simp_all [bne_iff_ne]

theorem flatMap_all (f : Char → List Char) (p : Char → Bool)
    (hf : ∀ ch, (f ch).all p = true) :
    ∀ l : List Char, (l.flatMap f).all p = true := by
  intro l
  induction l with
  | nil => rfl
  | cons a as ih => simp [List.flatMap_cons, List.all_append, hf a, ih]

/-- `escHtml` output never contains a raw `<`, so escaped text can never
open a tag. -/
theorem escHtml_no_lt (s : String) :
    (escHtml s).data.all (fun c => c != '<') = true := by
  unfold escHtml
  split
  · decide
  · exact flatMap_all escHtmlChar _ escHtmlChar_no_lt s.data

/-- `escAttr` output never contains a raw `<`, `"` or `'`, so escaped
attribute values can never break out of their quotes. -/
theorem escAttr_safe (s : String) :
    (escAttr s).data.all
      (fun c => c != '<' && c != Char.ofNat 34 && c != Char.ofNat 39) = true := by
  unfold escAttr
  split
  · decide
  · exact flatMap_all escAttrChar _ escAttrChar_safe s.data


theorem isPrefixOf_append_ext (p : List Char) :
    ∀ (l y : List Char), p.isPrefixOf l = true → p.isPrefixOf (l ++ y) = true := by
  induction p with
  | nil => intro l y h; simp [List.isPrefixOf]
  | cons a as ih =>
    intro l y h
    cases l with
    | nil => simp [List.isPrefixOf] at h
    | cons b bs =>
      simp only [List.isPrefixOf, Bool.and_eq_true] at h
      simp only [List.cons_append, List.isPrefixOf, Bool.and_eq_true]
      exact ⟨h.1, ih bs y h.2⟩

theorem charsContain_append_right (l y p : List Char)
    (h : charsContain l p = true) : charsContain (l ++ y) p = true := by
  induction l with
  | nil =>
    simp only [charsContain, List.isEmpty_iff] at h
    subst h
    simpa using charsContain_nil_pat y
  | cons a as ih =>
    simp only [charsContain, Bool.or_eq_true] at h
    rcases h with h | h
    · simp only [List.cons_append, charsContain, Bool.or_eq_true]
      exact Or.inl (isPrefixOf_append_ext _ _ _ h)
    · simp only [List.cons_append, charsContain, Bool.or_eq_true]
      exact Or.inr (ih h)

theorem charsContain_self (p : List Char) : charsContain p p = true := by
  simpa using charsContain_prefix_self p []

theorem charsContain_flatten_mem (L : List (List Char)) (x p : List Char)
    (hx : x ∈ L) (h : charsContain x p = true) : charsContain L.flatten p = true := by
  induction L with
  | nil => cases hx
  | cons a as ih =>
    rw [List.flatten_cons]
    rcases List.mem_cons.mp hx with rfl | hmem
    · exact charsContain_append_right _ _ _ h
    · exact charsContain_append_left _ _ _ (ih hmem)

/-- A substring of any member of a joined `List.map` survives into the
joined string: the workhorse for every `.map(...).join('')` template. -/
theorem charsContain_strjoin_map {α : Type} (f : α → String) (l : List α) (s : α)
    (p : String) (hs : s ∈ l) (h : charsContain (f s).data p.data = true) :
    charsContain (String.join (l.map f)).data p.data = true := by
  rw [String.data_join, List.map_map]
  exact charsContain_flatten_mem _ _ _ (List.mem_map_of_mem _ hs) h

theorem strContains_mid (a b p : String) : strContains (a ++ p ++ b) p = true := by
  simp only [strContains, String.data_append, List.append_assoc]
  apply charsContain_append_left
  exact charsContain_prefix_self _ _

/-!
One lemma per interpolation site of the renderer: every place
main.js inserts a user-supplied or model-generated string into the
markup, with the escape function it routes it through (or, for
`focus`/`task_type`, the verbatim value it inserts).
-/

theorem site_header_title (course : Course) :
    strContains (renderCourseHeader course) (escHtml course.title) = true := by
  simp only [renderCourseHeader, strContains, String.data_append, List.append_assoc]
  repeat first
    | exact charsContain_prefix_self _ _
    | apply charsContain_append_left

theorem site_header_desc (course : Course) :
    strContains (renderCourseHeader course) (escHtml course.description) = true := by
  simp only [renderCourseHeader, strContains, String.data_append, List.append_assoc]
  repeat first
    | exact charsContain_prefix_self _ _
    | apply charsContain_append_left

theorem site_prereq (course : Course) (p : String) (hp : p ∈ course.prerequisites) :
    strContains (renderCourseHeader course) (escHtml p) = true := by
  have hlen : course.prerequisites.length > 0 :=
    List.length_pos.mpr (List.ne_nil_of_mem hp)
  simp only [renderCourseHeader, strContains, String.data_append, List.append_assoc,
    hlen, if_true]
  repeat first
    | (apply charsContain_append_right
       exact charsContain_strjoin_map (fun q => "<li>" ++ escHtml q ++ "</li>")
         course.prerequisites p (escHtml p) hp (strContains_mid "<li>" "</li>" (escHtml p)))
    | exact charsContain_prefix_self _ _
    | apply charsContain_append_left

theorem site_week_title (w : Week) :
    strContains (renderWeekCard w) (escHtml w.title) = true := by
  simp only [renderWeekCard, strContains, String.data_append, List.append_assoc]
  repeat first
    | exact charsContain_prefix_self _ _
    | apply charsContain_append_left

theorem site_week_concept (w : Week) (cn : String) (hc : cn ∈ w.concepts) :
    strContains (renderWeekCard w) (escHtml cn) = true := by
  have hlen : w.concepts.length > 0 := List.length_pos.mpr (List.ne_nil_of_mem hc)
  simp only [renderWeekCard, strContains, String.data_append, List.append_assoc,
    hlen, if_true]
  repeat first
    | (apply charsContain_append_right
       exact charsContain_strjoin_map
         (fun c => "<span class=\"concept-tag\">" ++ escHtml c ++ "</span>")
         w.concepts cn (escHtml cn) hc
         (strContains_mid "<span class=\"concept-tag\">" "</span>" (escHtml cn)))
    | exact charsContain_prefix_self _ _
    | apply charsContain_append_left

theorem site_focus_verbatim (w : Week) :
    strContains (renderWeekCard w) (jsOr w.focus "theory") = true := by
  simp only [renderWeekCard, strContains, String.data_append, List.append_assoc]
  repeat first
    | exact charsContain_prefix_self _ _
    | apply charsContain_append_left

theorem site_daycard_title (d : Day) (n : Nat) :
    strContains (renderDayCard d n) (escHtml d.title) = true := by
  simp only [renderDayCard, strContains, String.data_append, List.append_assoc]
  repeat first
    | exact charsContain_prefix_self _ _
    | apply charsContain_append_left

theorem site_day_concept (d : Day) (n : Nat) (cn : String) (hc : cn ∈ d.concepts) :
    strContains (renderDayCard d n) (escHtml cn) = true := by
  have hlen : d.concepts.length > 0 := List.length_pos.mpr (List.ne_nil_of_mem hc)
  simp only [renderDayCard, strContains, String.data_append, List.append_assoc,
    hlen, if_true]
  repeat first
    | (apply charsContain_append_right
       exact charsContain_strjoin_map
         (fun c => "<span class=\"concept-tag\">" ++ escHtml c ++ "</span>")
         d.concepts cn (escHtml cn) hc
         (strContains_mid "<span class=\"concept-tag\">" "</span>" (escHtml cn)))
    | exact charsContain_prefix_self _ _
    | apply charsContain_append_left

theorem site_tasktype_verbatim (d : Day) (n : Nat) :
    strContains (renderDayCard d n) (jsOr d.task_type "theory") = true := by
  simp only [renderDayCard, strContains, String.data_append, List.append_assoc]
  repeat first
    | exact charsContain_prefix_self _ _
    | apply charsContain_append_left

theorem site_daycontent_desc (d : Day) :
    strContains (renderDayContent d) (escHtml (d.description.getD "")) = true := by
  simp only [renderDayContent, strContains, String.data_append, List.append_assoc]
  repeat first
    | exact charsContain_prefix_self _ _
    | apply charsContain_append_left

theorem site_daycontent_toc (d : Day) (toc : List String) (t : String)
    (htoc : d.table_of_contents = some toc) (ht : t ∈ toc) :
    strContains (renderDayContent d) (escHtml t) = true := by
  have hlen : toc.length > 0 := List.length_pos.mpr (List.ne_nil_of_mem ht)
  simp only [renderDayContent, strContains, String.data_append, List.append_assoc,
    htoc, hlen, if_true]
  repeat first
    | (apply charsContain_append_right
       exact charsContain_strjoin_map
         (fun q => "<li style=\"margin-bottom:4px\">" ++ escHtml q ++ "</li>")
         toc t (escHtml t) ht
         (strContains_mid "<li style=\"margin-bottom:4px\">" "</li>" (escHtml t)))
    | exact charsContain_prefix_self _ _
    | apply charsContain_append_left

theorem site_youtube_url (r : Resource) :
    strContains (renderYoutubeCard r) (escAttr r.url) = true := by
  simp only [renderYoutubeCard, strContains, String.data_append, List.append_assoc]
  repeat first
    | exact charsContain_prefix_self _ _
    | apply charsContain_append_left

theorem site_youtube_title (r : Resource) :
    strContains (renderYoutubeCard r) (escHtml r.title) = true := by
  simp only [renderYoutubeCard, strContains, String.data_append, List.append_assoc]
  repeat first
    | exact charsContain_prefix_self _ _
    | apply charsContain_append_left

theorem site_thumb_src (r : Resource) (t : String)
    (hthumb : r.thumbnail = some t) (hne : ¬(t = "")) :
    strContains (renderYoutubeCard r) (escAttr t) = true := by
  simp only [renderYoutubeCard, strContains, String.data_append, List.append_assoc,
    hthumb, hne, if_false, ite_false]
  repeat first
    | exact charsContain_prefix_self _ _
    | apply charsContain_append_left

theorem site_thumb_alt (r : Resource) (t : String)
    (hthumb : r.thumbnail = some t) (hne : ¬(t = "")) :
    strContains (renderYoutubeCard r) (escAttr r.title) = true := by
  simp only [renderYoutubeCard, strContains, String.data_append, List.append_assoc,
    hthumb, hne, if_false, ite_false]
  repeat first
    | exact charsContain_prefix_self _ _
    | apply charsContain_append_left

theorem site_youtube_desc (r : Resource) (dsc : String)
    (hdesc : r.description = some dsc) (hne : ¬(dsc = "")) :
    strContains (renderYoutubeCard r) (escHtml dsc) = true := by
  simp only [renderYoutubeCard, strContains, String.data_append, List.append_assoc,
    hdesc, hne, if_false, ite_false]
  repeat first
    | exact charsContain_prefix_self _ _
    | apply charsContain_append_left

theorem site_web_url (r : Resource) :
    strContains (renderWebCard r) (escAttr r.url) = true := by
  simp only [renderWebCard, strContains, String.data_append, List.append_assoc]
  repeat first
    | exact charsContain_prefix_self _ _
    | apply charsContain_append_left

theorem site_web_title (r : Resource) :
    strContains (renderWebCard r) (escHtml r.title) = true := by
  simp only [renderWebCard, strContains, String.data_append, List.append_assoc]
  repeat first
    | exact charsContain_prefix_self _ _
    | apply charsContain_append_left

theorem site_web_desc (r : Resource) (dsc : String)
    (hdesc : r.description = some dsc) (hne : ¬(dsc = "")) :
    strContains (renderWebCard r) (escHtml dsc) = true := by
  simp only [renderWebCard, strContains, String.data_append, List.append_assoc,
    hdesc, hne, if_false, ite_false]
  repeat first
    | exact charsContain_prefix_self _ _
    | apply charsContain_append_left

/-- A loaded day's card embeds its rendered content — in particular the
escaped description — wholesale. -/
theorem site_daycard_desc (d : Day) (n : Nat) (hl : d._loaded = true) :
    strContains (renderDayCard d n) (escHtml (d.description.getD "")) = true := by
  simp only [renderDayCard, strContains, String.data_append, List.append_assoc,
    hl, Bool.not_true, if_true, if_false, ite_true, ite_false, Bool.false_eq_true]
  repeat first
    | (apply charsContain_append_right
       exact site_daycontent_desc d)
    | exact charsContain_prefix_self _ _
    | apply charsContain_append_left

/-- An expanded week card embeds the complete rendered card of each of
its cached days. -/
theorem site_weekcard_daycard (w : Week) (ds : List Day) (d : Day)
    (hds : w._days = some ds) (hexp : w._expanded = true) (hd : d ∈ ds) :
    strContains (renderWeekCard w) (renderDayCard d w.week) = true := by
  simp only [renderWeekCard, strContains, String.data_append, List.append_assoc,
    hds, hexp, if_true, ite_true]
  generalize hp : renderDayCard d w.week = p
  repeat first
    | (apply charsContain_append_right
       exact charsContain_strjoin_map (fun x => renderDayCard x w.week) ds d p hd
         (by rw [show (fun x => renderDayCard x w.week) d = p from hp]
             exact charsContain_self _))
    | exact charsContain_prefix_self _ _
    | apply charsContain_append_left

theorem site_resources_youtube_url (rs : List Resource) (r : Resource)
    (hr : r ∈ rs) (hsrc : r.source = "youtube") :
    strContains (renderResources rs) (escAttr r.url) = true := by
  have hie : rs.isEmpty = false := by
    simp [List.isEmpty_iff, List.ne_nil_of_mem hr]
  have hmemf : r ∈ rs.filter (fun x => x.source == "youtube") :=
    List.mem_filter.mpr ⟨hr, by simp [hsrc]⟩
  have hlen : (rs.filter (fun x => x.source == "youtube")).length > 0 :=
    List.length_pos.mpr (List.ne_nil_of_mem hmemf)
  simp only [renderResources, strContains, String.data_append, List.append_assoc,
    hie, hlen, if_true, if_false, ite_true, ite_false, Bool.false_eq_true]
  repeat first
    | (apply charsContain_append_right
       exact charsContain_strjoin_map renderYoutubeCard
         (rs.filter (fun x => x.source == "youtube")) r (escAttr r.url) hmemf
         (site_youtube_url r))
    | exact charsContain_prefix_self _ _
    | apply charsContain_append_left

theorem site_resources_web_url (rs : List Resource) (r : Resource)
    (hr : r ∈ rs) (hsrc : r.source = "web") :
    strContains (renderResources rs) (escAttr r.url) = true := by
  have hie : rs.isEmpty = false := by
    simp [List.isEmpty_iff, List.ne_nil_of_mem hr]
  have hmemf : r ∈ rs.filter (fun x => x.source == "web") :=
    List.mem_filter.mpr ⟨hr, by simp [hsrc]⟩
  have hlen : (rs.filter (fun x => x.source == "web")).length > 0 :=
    List.length_pos.mpr (List.ne_nil_of_mem hmemf)
  simp only [renderResources, strContains, String.data_append, List.append_assoc,
    hie, hlen, if_true, if_false, ite_true, ite_false, Bool.false_eq_true]
  repeat first
    | (apply charsContain_append_right
       exact charsContain_strjoin_map renderWebCard
         (rs.filter (fun x => x.source == "web")) r (escAttr r.url) hmemf
         (site_web_url r))
    | exact charsContain_prefix_self _ _
    | apply charsContain_append_left

/-- C8 (amended): every user-supplied and model-generated text field is
HTML-escaped before insertion and every URL used as a link target or
image source is attribute-escaped, **except** a week's `focus` and a
day's `task_type`, which are interpolated verbatim (as a class token
and as badge text).  The conjunction covers, in order: the escape
functions emit no character that could open a tag or leave a quoted
attribute; then one conjunct per interpolation site of the renderer —
course title and description, week title, day title, web-resource URL
and title, YouTube-resource URL, the two verbatim exceptions, the
prerequisite items, week and day concept tags, the day description,
table-of-contents entries, the YouTube title, the thumbnail `src` URL,
the `alt` text, both resource descriptions — and the embedding of the
rendered day content in a loaded day card, of each day card in an
expanded week card, and of each resource card (hence its escaped URL)
in the resources sections. -/
theorem c8_amended_escaping :
    (∀ s : String, (escHtml s).data.all (fun c => c != '<') = true)
    ∧ (∀ s : String, (escAttr s).data.all
        (fun c => c != '<' && c != Char.ofNat 34 && c != Char.ofNat 39) = true)
    ∧ (∀ course : Course, strContains (renderCourseHeader course) (escHtml course.title) = true)
    ∧ (∀ course : Course, strContains (renderCourseHeader course) (escHtml course.description) = true)
    ∧ (∀ w : Week, strContains (renderWeekCard w) (escHtml w.title) = true)
    ∧ (∀ (d : Day) (n : Nat), strContains (renderDayCard d n) (escHtml d.title) = true)
    ∧ (∀ r : Resource, strContains (renderWebCard r) (escAttr r.url) = true)
    ∧ (∀ r : Resource, strContains (renderWebCard r) (escHtml r.title) = true)
    ∧ (∀ r : Resource, strContains (renderYoutubeCard r) (escAttr r.url) = true)
    ∧ (∀ w : Week, strContains (renderWeekCard w) (jsOr w.focus "theory") = true)
    ∧ (∀ (d : Day) (n : Nat), strContains (renderDayCard d n) (jsOr d.task_type "theory") = true)
    ∧ (∀ (course : Course) (p : String), p ∈ course.prerequisites →
        strContains (renderCourseHeader course) (escHtml p) = true)
    ∧ (∀ (w : Week) (cn : String), cn ∈ w.concepts →
        strContains (renderWeekCard w) (escHtml cn) = true)
    ∧ (∀ (d : Day) (n : Nat) (cn : String), cn ∈ d.concepts →
        strContains (renderDayCard d n) (escHtml cn) = true)
    ∧ (∀ d : Day, strContains (renderDayContent d) (escHtml (d.description.getD "")) = true)
    ∧ (∀ (d : Day) (toc : List String) (t : String),
        d.table_of_contents = some toc → t ∈ toc →
        strContains (renderDayContent d) (escHtml t) = true)
    ∧ (∀ r : Resource, strContains (renderYoutubeCard r) (escHtml r.title) = true)
    ∧ (∀ (r : Resource) (t : String), r.thumbnail = some t → ¬(t = "") →
        strContains (renderYoutubeCard r) (escAttr t) = true)
    ∧ (∀ (r : Resource) (t : String), r.thumbnail = some t → ¬(t = "") →
        strContains (renderYoutubeCard r) (escAttr r.title) = true)
    ∧ (∀ (r : Resource) (dsc : String), r.description = some dsc → ¬(dsc = "") →
        strContains (renderYoutubeCard r) (escHtml dsc) = true)
    ∧ (∀ (r : Resource) (dsc : String), r.description = some dsc → ¬(dsc = "") →
        strContains (renderWebCard r) (escHtml dsc) = true)
    ∧ (∀ (d : Day) (n : Nat), d._loaded = true →
        strContains (renderDayCard d n) (escHtml (d.description.getD "")) = true)
    ∧ (∀ (w : Week) (ds : List Day) (d : Day),
        w._days = some ds → w._expanded = true → d ∈ ds →
        strContains (renderWeekCard w) (renderDayCard d w.week) = true)
    ∧ (∀ (rs : List Resource) (r : Resource), r ∈ rs → r.source = "youtube" →
        strContains (renderResources rs) (escAttr r.url) = true)
    ∧ (∀ (rs : List Resource) (r : Resource), r ∈ rs → r.source = "web" →
        strContains (renderResources rs) (escAttr r.url) = true) :=
  ⟨escHtml_no_lt, escAttr_safe, site_header_title, site_header_desc, site_week_title,
   site_daycard_title, site_web_url, site_web_title, site_youtube_url,
   site_focus_verbatim, site_tasktype_verbatim, site_prereq, site_week_concept,
   site_day_concept, site_daycontent_desc, site_daycontent_toc, site_youtube_title,
   site_thumb_src, site_thumb_alt, site_youtube_desc, site_web_desc,
   site_daycard_desc, site_weekcard_daycard, site_resources_youtube_url,
   site_resources_web_url⟩

/-- A YouTube resource with thumbnail and description, used by the C8
witness. -/
def rTube : Resource :=
  { source := "youtube", url := "https://yt/v1", title := "Borrow video",
    description := some "Watch.", thumbnail := some "https://img/1.png" }

/-- A web resource with a description, used by the C8 witness. -/
def rWeb : Resource :=
  { source := "web", url := "https://ex.com/borrow", title := "Borrow article",
    description := some "Read.", thumbnail := none }

/-- A fully loaded day with concepts, table of contents and resources. -/
def dRich : Day :=
  { day := 2, title := "Borrowing", concepts := ["refs"], task_type := some "theory",
    duration_minutes := some 60, _loaded := true,
    description := some "Learn borrowing.",
    table_of_contents := some ["Intro", "Rules"], resources := some [rTube, rWeb] }

/-- An expanded week holding `dRich`. -/
def wRich : Week :=
  { week := 3, title := "Deep dive", focus := some "practice", concepts := ["own"],
    _days := some [dRich], _expanded := true, _loading := false }

/-- Witness for C8 (amended): every hypothesis-bearing conjunct applied
at a concrete course, week, day or resource. -/
theorem c8_amended_escaping_witness :
    strContains (renderCourseHeader { sampleCourse with prerequisites := ["Basic programming"] })
      (escHtml "Basic programming") = true
    ∧ strContains (renderWeekCard wIntro) (escHtml "basics") = true
    ∧ strContains (renderDayCard dRich 3) (escHtml "refs") = true
    ∧ strContains (renderDayContent dRich) (escHtml "Rules") = true
    ∧ strContains (renderYoutubeCard rTube) (escAttr "https://img/1.png") = true
    ∧ strContains (renderYoutubeCard rTube) (escAttr rTube.title) = true
    ∧ strContains (renderYoutubeCard rTube) (escHtml "Watch.") = true
    ∧ strContains (renderWebCard rWeb) (escHtml "Read.") = true
    ∧ strContains (renderDayCard dRich 3) (escHtml (dRich.description.getD "")) = true
    ∧ strContains (renderWeekCard wRich) (renderDayCard dRich wRich.week) = true
    ∧ strContains (renderResources [rTube, rWeb]) (escAttr rTube.url) = true
    ∧ strContains (renderResources [rTube, rWeb]) (escAttr rWeb.url) = true := by
  obtain ⟨-, -, -, -, -, -, -, -, -, -, -, h12, h13, h14, -, h16, -, h18, h19, h20,
    h21, h22, h23, h24, h25⟩ := c8_amended_escaping
  exact ⟨h12 _ "Basic programming" (by decide),
         h13 wIntro "basics" (by decide),
         h14 dRich 3 "refs" (by decide),
         h16 dRich ["Intro", "Rules"] "Rules" rfl (by decide),
         h18 rTube "https://img/1.png" rfl (by decide),
         h19 rTube "https://img/1.png" rfl (by decide),
         h20 rTube "Watch." rfl (by decide),
         h21 rWeb "Read." rfl (by decide),
         h22 dRich 3 rfl,
         h23 wRich [dRich] dRich rfl rfl (by decide),
         h24 [rTube, rWeb] rTube (by decide) rfl,
         h25 [rTube, rWeb] rWeb (by decide) rfl⟩
